import Mathlib

/-!
Verification development for the upload-queue subsystem of the
p115strmhelpertest plugin: the persisted task queue
(db_manager/models/upload_queue.py), the upload-history dedup store
(db_manager/models/upload_history.py), the single-flight processor
(helper/upload_queue_processor.py) and the enqueue pipeline
(helper/monitor.py), shallowly embedded as pure Lean functions over
explicit queue/history states.

Python strings are modelled as Lean `String`; the byte-level core string
routines do not reduce in the kernel, so the file defines character-list
equivalents (lowering, trimming, single-character splitting, substring
tests) and uses those throughout.
-/

/-- Python `str.lower()` on the character data (ASCII case folding, which is what
the extension suffixes in question use). -/
def lowerStr (s : String) : String := String.mk (s.data.map Char.toLower)

/-- Python `str.strip()`: drop leading and trailing whitespace characters. -/
def trimChars (l : List Char) : List Char :=
  ((l.dropWhile Char.isWhitespace).reverse.dropWhile Char.isWhitespace).reverse

/-- Python `str.split(sep)` for a one-character separator: splits at every
occurrence and keeps empty pieces, like Python. -/
def splitChar (sep : Char) : List Char → List (List Char)
  | [] => [[]]
  | c :: rest =>
    match splitChar sep rest with
    | [] => [[c]]
    | h :: t => if c = sep then [] :: h :: t else (c :: h) :: t

/-- Python's `needle in hay` substring test on character lists. -/
def containsSubAux (needle : List Char) : List Char → Bool
  | [] => needle.isEmpty
  | c :: rest => needle.isPrefixOf (c :: rest) || containsSubAux needle rest

/-- Substring test lifted to `String`. -/
def containsSub (hay needle : String) : Bool := containsSubAux needle.data hay.data

/-- QueueTask status column of `upload_queue`: "pending" / "processing" /
"completed" / "failed". -/
inductive Status
  | pending
  | processing
  | completed
  | failed
deriving DecidableEq

/-- One row of the `upload_queue` table (class `UploadQueue`). -/
structure QueueTask where
  id : Nat
  filePath : String
  fileName : String
  fileSize : Nat
  fileMtime : Int
  monitorPath : String
  destRemote : Option String
  destLocal : Option String
  operationType : String
  deleteSource : Bool
  status : Status
  retryCount : Nat
  errorMessage : Option String
  createdAt : Nat
  updatedAt : Nat
deriving DecidableEq

/-- One row of the `upload_history` table (class `UploadHistory`). -/
structure HistoryEntry where
  fileFingerprint : String
  fileSize : Nat
  filePath : String
  fileName : String
  destRemote : Option String
  destLocal : Option String
  operationType : String
  completedAt : Nat
deriving DecidableEq

/-- Model of `UploadQueue.get_next_pending_task`: the row with the smallest
`created_at` among the rows whose status is "pending" (`ORDER BY
created_at ASC LIMIT 1`), earliest row of the table among ties; `none`
when no pending row exists. -/
def get_next_pending_task (q : List QueueTask) : Option QueueTask :=
  (q.filter (fun t => t.status == Status.pending)).argmin QueueTask.createdAt

/-- Model of `UploadQueue.mark_as_processing`: `UPDATE ... SET status=processing,
updated_at=now WHERE id = task_id`. -/
def mark_as_processing (q : List QueueTask) (taskId : Nat) (now : Nat) : List QueueTask :=
  q.map fun t =>
    if t.id = taskId then { t with status := Status.processing, updatedAt := now } else t

/-- Model of `UploadQueue.mark_as_completed`: `UPDATE ... SET status=completed,
updated_at=now WHERE id = task_id`. -/
def mark_as_completed (q : List QueueTask) (taskId : Nat) (now : Nat) : List QueueTask :=
  q.map fun t =>
    if t.id = taskId then { t with status := Status.completed, updatedAt := now } else t

/-- Model of `UploadQueue.mark_as_failed`: `UPDATE ... SET status=failed,
error_message=error_msg, retry_count=retry_count, updated_at=now
WHERE id = task_id`. -/
def mark_as_failed (q : List QueueTask) (taskId : Nat) (errorMsg : String)
    (retryCount : Nat) (now : Nat) : List QueueTask :=
  q.map fun t =>
    if t.id = taskId then
      { t with status := Status.failed, errorMessage := some errorMsg,
               retryCount := retryCount, updatedAt := now }
    else t

/-- Model of `UploadQueue.mark_as_pending_retry`: `UPDATE ... SET status=pending,
retry_count=retry_count, updated_at=now WHERE id = task_id`. -/
def mark_as_pending_retry (q : List QueueTask) (taskId : Nat) (retryCount : Nat)
    (now : Nat) : List QueueTask :=
  q.map fun t =>
    if t.id = taskId then
      { t with status := Status.pending, retryCount := retryCount, updatedAt := now }
    else t

/-- Model of `UploadQueue.exists_in_queue`: a row with this path is in status
"pending" or "processing". -/
def exists_in_queue (q : List QueueTask) (filePath : String) : Bool :=
  q.any fun t =>
    t.filePath == filePath && (t.status == Status.pending || t.status == Status.processing)

/-- Model of `UploadQueue.reset_processing_tasks`: `UPDATE ... SET status=pending,
updated_at=now WHERE status=processing`, returning the updated table and
the statement's rowcount (the number of matched rows). -/
def reset_processing_tasks (q : List QueueTask) (now : Nat) : List QueueTask × Nat :=
  (q.map fun t =>
    if t.status = Status.processing then
      { t with status := Status.pending, updatedAt := now }
    else t,
   (q.filter fun t => t.status == Status.processing).length)

/-- Model of `UploadHistory.is_uploaded`: some history row matches both the
fingerprint and the file size. -/
def is_uploaded (h : List HistoryEntry) (fingerprint : String) (fileSize : Nat) : Bool :=
  h.any fun e => e.fileFingerprint == fingerprint && e.fileSize == fileSize

/-- Model of `UploadHistory.record_upload`: insert a history row with
`completed_at = now`. -/
def record_upload (h : List HistoryEntry) (fingerprint : String) (fileSize : Nat)
    (filePath fileName operationType : String)
    (destRemote destLocal : Option String) (now : Nat) : List HistoryEntry :=
  h ++ [{ fileFingerprint := fingerprint, fileSize := fileSize, filePath := filePath,
          fileName := fileName, destRemote := destRemote, destLocal := destLocal,
          operationType := operationType, completedAt := now }]

/-- The fingerprint computed by the processor:
`f"{task.file_size}_{task.file_mtime}"`. -/
def taskFingerprint (t : QueueTask) : String :=
  toString t.fileSize ++ "_" ++ toString t.fileMtime

/-- The literal error message the processor stores when the source file no
longer exists at execution time (`"文件不存在"`, "the file does not
exist"). -/
def sourceMissingMsg : String := "文件不存在"

/-- Externally observable side effects of one processor invocation:
dispatching the task to the transfer collaborator (`_execute_task`) and
deleting the source file (`_delete_source_file`). -/
inductive Effect
  | transferCall (taskId : Nat)
  | deleteSource (filePath : String)
deriving DecidableEq

/-- The environment one `process_one_task` call runs against: the
filesystem existence check, the transfer collaborator (`_execute_task`'s
(success, error-message) result, which already catches its own
exceptions), whether an unexpected exception is raised inside the `try`
block itself (the spec's ProcessorFault, modelled as striking before the
dequeue), and the wall-clock second used for `updated_at`. -/
structure ProcEnv where
  fileExists : String → Bool
  transfer : QueueTask → Bool × String
  fault : Bool
  now : Nat

/-- Mutable state crossing `process_one_task` calls: the in-process busy
flag `is_processing` plus the two persisted tables. -/
structure ProcState where
  isProcessing : Bool
  queue : List QueueTask
  history : List HistoryEntry
deriving DecidableEq

/-- What the `try` block of `process_one_task` produces: the returned
boolean, the two tables as left behind, and the emitted effects. -/
structure BodyResult where
  returned : Bool
  queue : List QueueTask
  history : List HistoryEntry
  effects : List Effect
deriving DecidableEq

/-- Result of a whole `process_one_task` call. -/
structure ProcResult where
  returned : Bool
  state : ProcState
  effects : List Effect
deriving DecidableEq

/-- The `try` block of `UploadQueueProcessor.process_one_task` (steps 1-6
of the Python method): fetch the oldest pending task, mark it processing,
fail it outright when the source file is gone, complete it without
dispatch when the history already holds its fingerprint, otherwise
dispatch to the transfer collaborator and either complete-and-historize
or retry/fail. A raised exception (`env.fault`) aborts with `False`. -/
def process_body (env : ProcEnv) (queue : List QueueTask)
    (history : List HistoryEntry) : BodyResult :=
  if env.fault then
    { returned := false, queue := queue, history := history, effects := [] }
  else
    match get_next_pending_task queue with
    | none => { returned := false, queue := queue, history := history, effects := [] }
    | some task =>
      let q1 := mark_as_processing queue task.id env.now
      if env.fileExists task.filePath = false then
        { returned := true,
          queue := mark_as_failed q1 task.id sourceMissingMsg task.retryCount env.now,
          history := history, effects := [] }
      else
        let fingerprint := taskFingerprint task
        if is_uploaded history fingerprint task.fileSize then
          { returned := true, queue := mark_as_completed q1 task.id env.now,
            history := history, effects := [] }
        else
          match env.transfer task with
          | (true, _) =>
            { returned := true,
              queue := mark_as_completed q1 task.id env.now,
              history := record_upload history fingerprint task.fileSize task.filePath
                task.fileName task.operationType task.destRemote task.destLocal env.now,
              effects := Effect.transferCall task.id ::
                (if task.deleteSource then [Effect.deleteSource task.filePath] else []) }
          | (false, errorMsg) =>
            let retryCount := task.retryCount + 1
            if retryCount < 3 then
              { returned := true,
                queue := mark_as_pending_retry q1 task.id retryCount env.now,
                history := history, effects := [Effect.transferCall task.id] }
            else
              { returned := true,
                queue := mark_as_failed q1 task.id errorMsg retryCount env.now,
                history := history, effects := [Effect.transferCall task.id] }

/-- Model of `UploadQueueProcessor.process_one_task`: a no-op returning `False`
while the busy flag is set; otherwise the flag is claimed, the `try` body
runs, and the `finally` clause clears the flag on every exit path. -/
def process_one_task (env : ProcEnv) (st : ProcState) : ProcResult :=
  if st.isProcessing then
    { returned := false, state := st, effects := [] }
  else
    let r := process_body env st.queue st.history
    { returned := r.returned,
      state := { isProcessing := false, queue := r.queue, history := r.history },
      effects := r.effects }

/-- The extension-list parsing in `enqueue_file` step 5:
`[f".{ext.strip()}" for ext in cfg.replace("，", ",").split(",")]` — the
full-width comma (a single character) is first turned into an ASCII
comma, the value is split on commas, and every piece is trimmed and given
a leading dot. -/
def parseExts (cfg : String) : List String :=
  ((splitChar ',' (cfg.data.map fun c => if c = '，' then ',' else c)).map
    fun ext => String.mk ('.' :: trimChars ext))

/-- Outcome of the extension classification in `enqueue_file` step 5. -/
inductive OpKind
  | upload
  | copy
  | nomatch
deriving DecidableEq

/-- The extension classification of `enqueue_file` step 5:
`file_suffix = file_path.suffix.lower()` is tested for membership in the
parsed upload-extension list first, then in the parsed copy-extension
list. -/
def classifyOperation (suffix uploadCfg copyCfg : String) : OpKind :=
  let fileSuffix := lowerStr suffix
  if fileSuffix ∈ parseExts uploadCfg then OpKind.upload
  else if fileSuffix ∈ parseExts copyCfg then OpKind.copy
  else OpKind.nomatch

/-- One entry of the `directory_upload_path` configuration list. -/
structure DirConf where
  src : String
  destRemote : String
  destLocal : String
  delete : Bool
deriving DecidableEq

/-- The configuration-matching loop of `enqueue_file` step 4: skip falsy
items, take the first entry whose `src` equals the triggering monitor
path. -/
def matchConfig (monPath : String) : List (Option DirConf) → Option DirConf
  | [] => none
  | none :: rest => matchConfig monPath rest
  | some c :: rest => if monPath = c.src then some c else matchConfig monPath rest

/-- The exclusion test of `enqueue_file` step 1: recycle-bin markers,
hidden-file marker, and the Synology metadata directory. -/
def isExcludedPath (eventPath : String) : Bool :=
  containsSub eventPath "/@Recycle/" || containsSub eventPath "/#recycle/" ||
  containsSub eventPath "/." || containsSub eventPath "/@eaDir"

/-- The Blu-ray test of `enqueue_file` step 1: the case-insensitive regex
`BDMV[/\\]STREAM` searched anywhere in the path. -/
def isBlurayPath (eventPath : String) : Bool :=
  containsSub (lowerStr eventPath) "bdmv/stream" ||
  containsSub (lowerStr eventPath) "bdmv\\stream"

/-- Where `enqueue_file` returns: every `return` in its body, plus
`faultLogged` for the terminal `except Exception` handler that logs the
fault and falls off the end of the function. -/
inductive EnqOutcome
  | ignoredMissing
  | skippedExcluded
  | skippedBluray
  | skippedUnstable
  | skippedHistory
  | skippedInQueue
  | skippedNoConf
  | skippedNoRemote
  | skippedNoLocal
  | skippedNoExtMatch
  | enqueued (operationType : String) (destRemote : Option String)
      (destLocal : Option String) (deleteSource : Bool)
  | faultLogged (msg : String)
deriving DecidableEq

/-- The collaborators `enqueue_file` calls. Operations that can raise in
Python are `Except String`-valued, the error being the propagating
exception; `Path.exists` swallows I/O errors and `is_file_stable` has its
own catch-all returning `False`, so both are plain booleans. `suffix` is
`file_path.suffix` (a pure string computation). -/
structure EnqEnv where
  pathExists : Bool
  stable : Bool
  statSize : Except String Nat
  statMtime : Except String Int
  historyUploaded : String → Nat → Except String Bool
  inQueue : String → Except String Bool
  dirConfigs : Except String (List (Option DirConf))
  uploadExtCfg : Except String String
  copyExtCfg : Except String String
  suffix : String
  insertTask : Except String Unit

/-- The body of `helper/monitor.py:enqueue_file` from the first existence
check up to `UploadQueue.create_task`, i.e. everything inside the `try`
block; an `Except.error` is an exception reaching the `except` handler. -/
def enqueue_body (env : EnqEnv) (eventPath monPath : String) :
    Except String EnqOutcome := do
  if env.pathExists = false then return EnqOutcome.ignoredMissing
  if isExcludedPath eventPath then return EnqOutcome.skippedExcluded
  if isBlurayPath eventPath then return EnqOutcome.skippedBluray
  if env.stable = false then return EnqOutcome.skippedUnstable
  let fileSize ← env.statSize
  let fileMtime ← env.statMtime
  let fingerprint := toString fileSize ++ "_" ++ toString fileMtime
  let uploaded ← env.historyUploaded fingerprint fileSize
  if uploaded then return EnqOutcome.skippedHistory
  let queued ← env.inQueue eventPath
  if queued then return EnqOutcome.skippedInQueue
  let items ← env.dirConfigs
  match matchConfig monPath items with
  | none => return EnqOutcome.skippedNoConf
  | some conf =>
    let uploadCfg ← env.uploadExtCfg
    let copyCfg ← env.copyExtCfg
    match classifyOperation env.suffix uploadCfg copyCfg with
    | OpKind.upload =>
      if conf.destRemote = "" then return EnqOutcome.skippedNoRemote
      let _ ← env.insertTask
      return EnqOutcome.enqueued "upload" (some conf.destRemote) none conf.delete
    | OpKind.copy =>
      if conf.destLocal = "" then return EnqOutcome.skippedNoLocal
      let _ ← env.insertTask
      return EnqOutcome.enqueued "copy" none (some conf.destLocal) conf.delete
    | OpKind.nomatch => return EnqOutcome.skippedNoExtMatch

/-- Model of `helper/monitor.py:enqueue_file` as seen by its caller: the whole body
runs inside `try ... except Exception`, whose handler logs the fault and
returns normally, so the `Except.error` of a propagating exception never
escapes. -/
def enqueue_file (env : EnqEnv) (eventPath monPath : String) :
    Except String EnqOutcome :=
  match enqueue_body env eventPath monPath with
  | Except.ok o => Except.ok o
  | Except.error e => Except.ok (EnqOutcome.faultLogged e)

/-! ## Helper lemmas -/

theorem mem_zip_map {α β : Type} (f : α → β) :
    ∀ (l : List α) (p : α × β), p ∈ l.zip (l.map f) → p.2 = f p.1
  | [], p, hp => by cases hp
  | a :: l, p, hp => by
    rw [List.map_cons, List.zip_cons_cons] at hp
    rcases List.mem_cons.mp hp with h | h
    · rw [h]
    · exact mem_zip_map f l p h

theorem mark_proc_then_completed (q : List QueueTask) (taskId now : Nat) :
    mark_as_completed (mark_as_processing q taskId now) taskId now =
      q.map fun t =>
        if t.id = taskId then { t with status := Status.completed, updatedAt := now }
        else t := by
  unfold mark_as_completed mark_as_processing
  rw [List.map_map]
  refine List.map_congr_left fun t _ => ?_
  by_cases h : t.id = taskId <;> simp [Function.comp, h]

theorem mark_proc_then_failed (q : List QueueTask) (taskId : Nat) (msg : String)
    (rc now : Nat) :
    mark_as_failed (mark_as_processing q taskId now) taskId msg rc now =
      q.map fun t =>
        if t.id = taskId then
          { t with status := Status.failed, errorMessage := some msg,
                   retryCount := rc, updatedAt := now }
        else t := by
  unfold mark_as_failed mark_as_processing
  rw [List.map_map]
  refine List.map_congr_left fun t _ => ?_
  by_cases h : t.id = taskId <;> simp [Function.comp, h]

theorem mark_proc_then_pending_retry (q : List QueueTask) (taskId rc now : Nat) :
    mark_as_pending_retry (mark_as_processing q taskId now) taskId rc now =
      q.map fun t =>
        if t.id = taskId then
          { t with status := Status.pending, retryCount := rc, updatedAt := now }
        else t := by
  unfold mark_as_pending_retry mark_as_processing
  rw [List.map_map]
  refine List.map_congr_left fun t _ => ?_
  by_cases h : t.id = taskId <;> simp [Function.comp, h]

/-! ## C3: busy flag -/

/-- C3: a `process_one_task` call arriving while the busy flag is set is
an immediate no-op returning `False` with the whole state (busy flag and
both tables) unchanged and no effect emitted; a call that does claim the
flag leaves it cleared on every exit path (success, failure, fault or
empty queue), so the flag is clear after every non-busy call returns. -/
theorem processor_busy_flag (env : ProcEnv) (st : ProcState) :
    (st.isProcessing = true →
      process_one_task env st = { returned := false, state := st, effects := [] }) ∧
    (st.isProcessing = false →
      (process_one_task env st).state.isProcessing = false) := by
  constructor <;> intro h <;> simp [process_one_task, h]

def cEnv0 : ProcEnv :=
  { fileExists := fun _ => true, transfer := fun _ => (true, ""), fault := false,
    now := 50 }

def cBusySt : ProcState := { isProcessing := true, queue := [], history := [] }

def cFreeSt : ProcState := { isProcessing := false, queue := [], history := [] }

theorem processor_busy_flag_witness :
    process_one_task cEnv0 cBusySt = { returned := false, state := cBusySt, effects := [] } ∧
    (process_one_task cEnv0 cFreeSt).state.isProcessing = false :=
  ⟨(processor_busy_flag cEnv0 cBusySt).1 rfl, (processor_busy_flag cEnv0 cFreeSt).2 rfl⟩

/-! ## C8: the boolean result -/

/-- C8: `process_one_task` returns `True` exactly when the worker was
free, no fault struck, and a pending task was fetched (every fetched task
is driven to a transition and yields `True`, including the source-missing
and history-dedup shortcuts); the busy no-op, the empty queue and the
internal fault all return the same `False`, indistinguishable to the
caller. -/
theorem process_one_task_return_value (env : ProcEnv) (st : ProcState) :
    (process_one_task env st).returned =
      (!st.isProcessing && !env.fault && (get_next_pending_task st.queue).isSome) := by
  by_cases hb : st.isProcessing
  · simp [process_one_task, hb]
  · by_cases hf : env.fault
    · simp [process_one_task, process_body, hb, hf]
    · cases hq : get_next_pending_task st.queue with
      | none => simp [process_one_task, process_body, hb, hf, hq]
      | some t =>
        have hrhs : (!st.isProcessing && !env.fault && (some t).isSome) = true := by
          simp [hb, hf]
        rw [hrhs]
        simp only [process_one_task, process_body, hq]
        rw [if_neg hb, if_neg hf]
        by_cases hex : env.fileExists t.filePath = false
        · simp [hex]
        · rw [if_neg hex]
          by_cases hup : is_uploaded st.history (taskFingerprint t) t.fileSize = true
          · simp [hup]
          · rw [if_neg hup]
            rcases henv : env.transfer t with ⟨s, m⟩
            cases s
            · by_cases hr : t.retryCount + 1 < 3
              · simp [hr]
              · simp [hr]
            · simp

/-! ## C4: FIFO dequeue -/

/-- C4: `get_next_pending_task` is FIFO on `created_at`: whenever two
pending tasks A and B are in the table with A created strictly before B,
a task is returned, and whatever task is returned is pending, created no
later than A, and in particular is not B — so A-or-older is always
selected before B, for every table layout; and when no pending task
exists the result is `none`. -/
theorem get_next_pending_fifo :
    (∀ (q : List QueueTask) (A B : QueueTask), A ∈ q → B ∈ q →
      A.status = Status.pending → B.status = Status.pending →
      A.createdAt < B.createdAt →
      get_next_pending_task q ≠ none ∧
      ∀ C, get_next_pending_task q = some C →
        C.status = Status.pending ∧ C.createdAt ≤ A.createdAt ∧ C ≠ B) ∧
    (∀ q : List QueueTask, (∀ t ∈ q, t.status ≠ Status.pending) →
      get_next_pending_task q = none) := by
  constructor
  · intro q A B hA _hB hSA _hSB hlt
    have hAf : A ∈ q.filter fun t => t.status == Status.pending :=
      List.mem_filter.mpr ⟨hA, by simp [hSA]⟩
    constructor
    · intro hnone
      have : (q.filter fun t => t.status == Status.pending) = [] :=
        List.argmin_eq_none.mp hnone
      rw [this] at hAf
      cases hAf
    · intro C hC
      have hCm : C ∈ (q.filter fun t => t.status == Status.pending).argmin
          QueueTask.createdAt := hC
      have hCf := List.argmin_mem hCm
      have hCs : C.status = Status.pending := by
        have := (List.mem_filter.mp hCf).2
        simpa using this
      have hle : C.createdAt ≤ A.createdAt := List.le_of_mem_argmin hAf hCm
      refine ⟨hCs, hle, fun hEq => ?_⟩
      rw [hEq] at hle
      omega
  · intro q h
    have hnil : (q.filter fun t => t.status == Status.pending) = [] :=
      List.filter_eq_nil_iff.mpr fun t ht => by simpa using h t ht
    unfold get_next_pending_task
    rw [hnil]
    exact List.argmin_nil _

def tA4 : QueueTask :=
  { id := 1, filePath := "/mon/a.mkv", fileName := "a.mkv", fileSize := 5,
    fileMtime := 7, monitorPath := "/mon", destRemote := some "/r",
    destLocal := none, operationType := "upload", deleteSource := false,
    status := Status.pending, retryCount := 0, errorMessage := none,
    createdAt := 10, updatedAt := 10 }

def tB4 : QueueTask := { tA4 with id := 2, filePath := "/mon/b.mkv", createdAt := 20 }

def tC4 : QueueTask := { tA4 with id := 3, status := Status.completed }

theorem get_next_pending_fifo_witness :
    get_next_pending_task [tB4, tA4] ≠ none ∧
    (tA4.status = Status.pending ∧ tA4.createdAt ≤ tA4.createdAt ∧ tA4 ≠ tB4) ∧
    get_next_pending_task [tC4] = none := by
  have h := get_next_pending_fifo.1 [tB4, tA4] tA4 tB4 (by decide) (by decide)
    (by decide) (by decide) (by decide)
  exact ⟨h.1, h.2 tA4 (by decide), get_next_pending_fifo.2 [tC4] (by decide)⟩

/-! ## C6: recovery reset -/

/-- C6: `reset_processing_tasks` keeps the table the same length, returns
exactly the number of rows whose status was "processing", rewrites every
such row to status "pending" with `updated_at` refreshed, leaves every
row in any other status completely unchanged, and returns 0 when no row
is in "processing". -/
theorem reset_processing_spec (q : List QueueTask) (now : Nat) :
    (reset_processing_tasks q now).1.length = q.length ∧
    (reset_processing_tasks q now).2 =
      (q.filter fun t => t.status == Status.processing).length ∧
    (∀ p ∈ q.zip (reset_processing_tasks q now).1,
      ((p.1).status = Status.processing →
        p.2 = { p.1 with status := Status.pending, updatedAt := now }) ∧
      ((p.1).status ≠ Status.processing → p.2 = p.1)) ∧
    ((∀ t ∈ q, t.status ≠ Status.processing) → (reset_processing_tasks q now).2 = 0) := by
  refine ⟨by simp [reset_processing_tasks], rfl, ?_, ?_⟩
  · intro p hp
    have h2 := mem_zip_map _ q p hp
    constructor
    · intro hs
      rw [h2, if_pos hs]
    · intro hs
      rw [h2, if_neg hs]
  · intro h
    have hnil : (q.filter fun t => t.status == Status.processing) = [] :=
      List.filter_eq_nil_iff.mpr fun t ht => by simpa using h t ht
    simp [reset_processing_tasks, hnil]

def tP6 : QueueTask := { tA4 with id := 7, status := Status.processing }

def tD6 : QueueTask := { tA4 with id := 8, status := Status.failed }

theorem reset_processing_spec_witness :
    (reset_processing_tasks [tP6, tD6] 5).1.length = 2 ∧
    (reset_processing_tasks [tP6, tD6] 5).2 = 1 ∧
    (reset_processing_tasks [tD6] 5).2 = 0 := by
  refine ⟨?_, ?_, (reset_processing_spec [tD6] 5).2.2.2 (by decide)⟩
  · exact (reset_processing_spec [tP6, tD6] 5).1
  · rw [(reset_processing_spec [tP6, tD6] 5).2.1]
    decide

/-! ## C2: history dedup completes without dispatch -/

/-- C2: when the dequeued task's fingerprint (fileSize_mtime) together
with its file size already matches a history row at processing time and
the source file still exists, the processor returns `True`, transitions
exactly that task to "completed" (with `updated_at` refreshed), and emits
no effect at all — in particular the transfer collaborator is never
invoked. -/
theorem processor_history_dedup_completes (env : ProcEnv) (st : ProcState)
    (t : QueueTask)
    (hb : st.isProcessing = false) (hf : env.fault = false)
    (hnext : get_next_pending_task st.queue = some t)
    (hex : env.fileExists t.filePath = true)
    (hup : is_uploaded st.history (taskFingerprint t) t.fileSize = true) :
    (process_one_task env st).returned = true ∧
    (process_one_task env st).effects = [] ∧
    (process_one_task env st).state.history = st.history ∧
    (process_one_task env st).state.queue =
      st.queue.map fun u =>
        if u.id = t.id then { u with status := Status.completed, updatedAt := env.now }
        else u := by
  have hne : ¬env.fileExists t.filePath = false := by rw [hex]; simp
  have hp : process_one_task env st =
      { returned := true,
        state := { isProcessing := false,
                   queue := mark_as_completed
                     (mark_as_processing st.queue t.id env.now) t.id env.now,
                   history := st.history },
        effects := [] } := by
    unfold process_one_task process_body
    rw [if_neg (by rw [hb]; simp), if_neg (by rw [hf]; simp), hnext]
    dsimp only
    rw [if_neg hne, if_pos hup]
  rw [hp, mark_proc_then_completed]
  exact ⟨rfl, rfl, rfl, rfl⟩

def c2Task : QueueTask :=
  { id := 4, filePath := "/mon/d.mkv", fileName := "d.mkv", fileSize := 5,
    fileMtime := 7, monitorPath := "/mon", destRemote := some "/r",
    destLocal := none, operationType := "upload", deleteSource := true,
    status := Status.pending, retryCount := 0, errorMessage := none,
    createdAt := 10, updatedAt := 10 }

def c2Hist : HistoryEntry :=
  { fileFingerprint := "5_7", fileSize := 5, filePath := "/mon/d.mkv",
    fileName := "d.mkv", destRemote := some "/r", destLocal := none,
    operationType := "upload", completedAt := 90 }

def c2Env : ProcEnv :=
  { fileExists := fun _ => true, transfer := fun _ => (true, ""), fault := false,
    now := 300 }

def c2St : ProcState :=
  { isProcessing := false, queue := [c2Task], history := [c2Hist] }

theorem processor_history_dedup_completes_witness :
    (process_one_task c2Env c2St).returned = true ∧
    (process_one_task c2Env c2St).effects = [] ∧
    (process_one_task c2Env c2St).state.queue =
      [{ c2Task with status := Status.completed, updatedAt := 300 }] := by
  have h := processor_history_dedup_completes c2Env c2St c2Task (by decide)
    (by decide) (by decide) (by decide) (by decide)
  refine ⟨h.1, h.2.1, ?_⟩
  rw [h.2.2.2]
  decide

/-! ## C9: the dedup shortcut writes nothing else -/

/-- C9: on the history-dedup shortcut the history table is left exactly as
it was (no new entry recorded), no effect is emitted (so the source file
is not deleted even when the task's `delete_source` flag is set — deletion
and `record_upload` belong solely to the successful-transfer path), rows
other than the dequeued task's are unchanged, and even the dequeued
task's row keeps every field except `status` and `updated_at`. -/
theorem processor_dedup_frame (env : ProcEnv) (st : ProcState) (t : QueueTask)
    (hb : st.isProcessing = false) (hf : env.fault = false)
    (hnext : get_next_pending_task st.queue = some t)
    (hex : env.fileExists t.filePath = true)
    (hup : is_uploaded st.history (taskFingerprint t) t.fileSize = true) :
    (process_one_task env st).state.history = st.history ∧
    (process_one_task env st).effects = [] ∧
    ∀ p ∈ st.queue.zip (process_one_task env st).state.queue,
      ((p.1).id ≠ t.id → p.2 = p.1) ∧
      (p.2).filePath = (p.1).filePath ∧ (p.2).fileName = (p.1).fileName ∧
      (p.2).fileSize = (p.1).fileSize ∧ (p.2).fileMtime = (p.1).fileMtime ∧
      (p.2).monitorPath = (p.1).monitorPath ∧ (p.2).destRemote = (p.1).destRemote ∧
      (p.2).destLocal = (p.1).destLocal ∧
      (p.2).operationType = (p.1).operationType ∧
      (p.2).deleteSource = (p.1).deleteSource ∧
      (p.2).retryCount = (p.1).retryCount ∧
      (p.2).errorMessage = (p.1).errorMessage ∧
      (p.2).createdAt = (p.1).createdAt := by
  obtain ⟨_h1, h2, h3, h4⟩ :=
    processor_history_dedup_completes env st t hb hf hnext hex hup
  refine ⟨h3, h2, ?_⟩
  intro p hp
  rw [h4] at hp
  have hpe := mem_zip_map _ st.queue p hp
  by_cases hid : (p.1).id = t.id
  · rw [hpe, if_pos hid]
    exact ⟨fun hc => absurd hid hc, rfl, rfl, rfl, rfl, rfl, rfl, rfl, rfl, rfl,
      rfl, rfl, rfl⟩
  · rw [hpe, if_neg hid]
    exact ⟨fun _ => rfl, rfl, rfl, rfl, rfl, rfl, rfl, rfl, rfl, rfl, rfl, rfl, rfl⟩

theorem processor_dedup_frame_witness :
    (process_one_task c2Env c2St).state.history = [c2Hist] ∧
    (process_one_task c2Env c2St).effects = [] ∧
    c2Task.deleteSource = true := by
  have h := processor_dedup_frame c2Env c2St c2Task (by decide) (by decide)
    (by decide) (by decide) (by decide)
  exact ⟨h.1, h.2.1, rfl⟩

/-! ## C5: missing source file -/

def c5Task : QueueTask :=
  { id := 5, filePath := "/mon/e.mkv", fileName := "e.mkv", fileSize := 5,
    fileMtime := 7, monitorPath := "/mon", destRemote := some "/r",
    destLocal := none, operationType := "upload", deleteSource := false,
    status := Status.pending, retryCount := 0, errorMessage := none,
    createdAt := 10, updatedAt := 10 }

def c5Env : ProcEnv :=
  { fileExists := fun _ => false, transfer := fun _ => (true, ""), fault := false,
    now := 111 }

def c5St : ProcState := { isProcessing := false, queue := [c5Task], history := [] }

/-- The row c5Task is left as by the source-missing path: failed, message
"文件不存在", retry count still 0. -/
def c5Failed : QueueTask :=
  { c5Task with status := Status.failed, errorMessage := some sourceMissingMsg,
                retryCount := 0, updatedAt := 111 }

/-- C5 counterexample: on a dequeued task whose source file is gone the
processor does fail the task immediately, but the persisted error message
is the fixed string "文件不存在", not the string "source missing" the
claim names. -/
theorem source_missing_message_cex :
    (process_one_task c5Env c5St).state.queue = [c5Failed] ∧
    sourceMissingMsg ≠ "source missing" := by decide

/-- C5 amended: for every dequeued task whose source file no longer exists
at execution time, the processor transitions the task immediately to
terminal Failed with its `retry_count` unchanged and the fixed error
message "文件不存在" ("file does not exist"), without invoking the
transfer collaborator and without any retry. -/
theorem source_missing_failure (env : ProcEnv) (st : ProcState) (t : QueueTask)
    (hb : st.isProcessing = false) (hf : env.fault = false)
    (hnext : get_next_pending_task st.queue = some t)
    (hex : env.fileExists t.filePath = false) :
    (process_one_task env st).returned = true ∧
    (process_one_task env st).effects = [] ∧
    (process_one_task env st).state.history = st.history ∧
    (process_one_task env st).state.queue =
      st.queue.map fun u =>
        if u.id = t.id then
          { u with status := Status.failed, errorMessage := some sourceMissingMsg,
                   retryCount := t.retryCount, updatedAt := env.now }
        else u := by
  have hp : process_one_task env st =
      { returned := true,
        state := { isProcessing := false,
                   queue := mark_as_failed
                     (mark_as_processing st.queue t.id env.now) t.id
                     sourceMissingMsg t.retryCount env.now,
                   history := st.history },
        effects := [] } := by
    unfold process_one_task process_body
    rw [if_neg (by rw [hb]; simp), if_neg (by rw [hf]; simp), hnext]
    dsimp only
    rw [if_pos hex]
  rw [hp, mark_proc_then_failed]
  exact ⟨rfl, rfl, rfl, rfl⟩

theorem source_missing_failure_witness :
    (process_one_task c5Env c5St).returned = true ∧
    (process_one_task c5Env c5St).effects = [] ∧
    (process_one_task c5Env c5St).state.queue = [c5Failed] := by
  have h := source_missing_failure c5Env c5St c5Task (by decide) (by decide)
    (by decide) (by decide)
  refine ⟨h.1, h.2.1, ?_⟩
  rw [h.2.2.2]
  decide

/-! ## C1: retry policy -/

def c1ErrA : String := "error-1"

def c1ErrB : String := "error-2"

def c1ErrC : String := "error-3"

def c1Task : QueueTask :=
  { id := 9, filePath := "/mon/f.mkv", fileName := "f.mkv", fileSize := 5,
    fileMtime := 7, monitorPath := "/mon", destRemote := some "/r",
    destLocal := none, operationType := "upload", deleteSource := false,
    status := Status.pending, retryCount := 0, errorMessage := none,
    createdAt := 10, updatedAt := 10 }

def c1Env (msg : String) : ProcEnv :=
  { fileExists := fun _ => true, transfer := fun _ => (false, msg), fault := false,
    now := 200 }

def c1St0 : ProcState := { isProcessing := false, queue := [c1Task], history := [] }

def c1St1 : ProcState := (process_one_task (c1Env c1ErrA) c1St0).state

def c1St2 : ProcState := (process_one_task (c1Env c1ErrB) c1St1).state

def c1St3 : ProcState := (process_one_task (c1Env c1ErrC) c1St2).state

def c1Retry1 : QueueTask := { c1Task with retryCount := 1, updatedAt := 200 }

def c1Final : QueueTask :=
  { c1Task with status := Status.failed, retryCount := 3,
                errorMessage := some c1ErrC, updatedAt := 200 }

/-- C1: when the transfer collaborator fails on a dequeued task, the
processor increments the task's retry count by exactly one; when the new
value is below 3 the task goes back to "pending" with the updated count,
when it reaches 3 or more the task goes to "failed" with the captured
error message; `created_at` is never touched, so the task re-enters the
FIFO at its original position. Concretely, three consecutive failing
passes over one task drive its retry count 0 → 1 → 2 → 3 and leave it
"failed" with the third failure's message. -/
theorem processor_retry_policy (env : ProcEnv) (st : ProcState) (t : QueueTask)
    (m : String)
    (hb : st.isProcessing = false) (hf : env.fault = false)
    (hnext : get_next_pending_task st.queue = some t)
    (hex : env.fileExists t.filePath = true)
    (hup : is_uploaded st.history (taskFingerprint t) t.fileSize = false)
    (htr : env.transfer t = (false, m)) :
    (process_one_task env st).returned = true ∧
    (process_one_task env st).state.history = st.history ∧
    (t.retryCount + 1 < 3 →
      (process_one_task env st).state.queue =
        st.queue.map fun u =>
          if u.id = t.id then
            { u with status := Status.pending, retryCount := t.retryCount + 1,
                     updatedAt := env.now }
          else u) ∧
    (¬t.retryCount + 1 < 3 →
      (process_one_task env st).state.queue =
        st.queue.map fun u =>
          if u.id = t.id then
            { u with status := Status.failed, errorMessage := some m,
                     retryCount := t.retryCount + 1, updatedAt := env.now }
          else u) ∧
    (process_one_task env st).state.queue.map QueueTask.createdAt =
      st.queue.map QueueTask.createdAt ∧
    (c1Task.retryCount = 0 ∧
     c1St1.queue.map QueueTask.retryCount = [1] ∧
     c1St1.queue.map QueueTask.status = [Status.pending] ∧
     c1St2.queue.map QueueTask.retryCount = [2] ∧
     c1St2.queue.map QueueTask.status = [Status.pending] ∧
     c1St3.queue = [c1Final]) := by
  have hne : ¬env.fileExists t.filePath = false := by rw [hex]; simp
  have hupne : ¬is_uploaded st.history (taskFingerprint t) t.fileSize = true := by
    rw [hup]; simp
  by_cases hr : t.retryCount + 1 < 3
  · have hp : process_one_task env st =
        { returned := true,
          state := { isProcessing := false,
                     queue := mark_as_pending_retry
                       (mark_as_processing st.queue t.id env.now) t.id
                       (t.retryCount + 1) env.now,
                     history := st.history },
          effects := [Effect.transferCall t.id] } := by
      unfold process_one_task process_body
      rw [if_neg (by rw [hb]; simp), if_neg (by rw [hf]; simp), hnext]
      dsimp only
      rw [if_neg hne, if_neg hupne, htr]
      dsimp only
      rw [if_pos hr]
    rw [hp, mark_proc_then_pending_retry]
    refine ⟨rfl, rfl, fun _ => rfl, fun hc => absurd hr hc, ?_, by decide⟩
    rw [List.map_map]
    refine List.map_congr_left fun u _ => ?_
    by_cases h : u.id = t.id <;> simp [Function.comp, h]
  · have hp : process_one_task env st =
        { returned := true,
          state := { isProcessing := false,
                     queue := mark_as_failed
                       (mark_as_processing st.queue t.id env.now) t.id m
                       (t.retryCount + 1) env.now,
                     history := st.history },
          effects := [Effect.transferCall t.id] } := by
      unfold process_one_task process_body
      rw [if_neg (by rw [hb]; simp), if_neg (by rw [hf]; simp), hnext]
      dsimp only
      rw [if_neg hne, if_neg hupne, htr]
      dsimp only
      rw [if_neg hr]
    rw [hp, mark_proc_then_failed]
    refine ⟨rfl, rfl, fun hc => absurd hc hr, fun _ => rfl, ?_, by decide⟩
    rw [List.map_map]
    refine List.map_congr_left fun u _ => ?_
    by_cases h : u.id = t.id <;> simp [Function.comp, h]

theorem processor_retry_policy_witness :
    (process_one_task (c1Env c1ErrA) c1St0).returned = true ∧
    (process_one_task (c1Env c1ErrA) c1St0).state.queue = [c1Retry1] := by
  have h := processor_retry_policy (c1Env c1ErrA) c1St0 c1Task c1ErrA (by decide)
    (by decide) (by decide) (by decide) (by decide) (by decide)
  refine ⟨h.1, ?_⟩
  rw [h.2.2.1 (by decide)]
  decide

/-! ## C7: extension classification -/

/-- C7 counterexample: classification is not case-insensitive as a whole.
The configured entry "MKV" is normalized to ".MKV" without any case
folding, while the file's suffix is lowercased before the comparison, so
a file whose extension matches the entry — even in the identical case
".MKV", let alone ".mkv" — is not classified; only a lowercase entry
matches (and then matches any case of the file's extension). -/
theorem extension_case_insensitive_cex :
    parseExts "MKV" = [".MKV"] ∧
    classifyOperation ".MKV" "MKV" "" = OpKind.nomatch ∧
    classifyOperation ".mkv" "MKV" "" = OpKind.nomatch ∧
    classifyOperation ".MKV" "mkv" "" = OpKind.upload := by decide

/-- C7 amended: classification lowercases the file's extension and
compares it verbatim to the normalized configured entries — so it is
case-insensitive in the file's extension (two suffixes equal up to
lowercasing classify identically) but case-sensitive in the configured
entries. The configured lists accept ASCII and full-width commas as
delimiters and each entry is trimmed and prefixed with a dot before
comparison, and the upload-extension list is checked before the
copy-extension list. -/
theorem extension_classification_spec :
    (∀ sa sb u c : String, lowerStr sa = lowerStr sb →
      classifyOperation sa u c = classifyOperation sb u c) ∧
    (∀ s u c : String, lowerStr s ∈ parseExts u →
      classifyOperation s u c = OpKind.upload) ∧
    (∀ s u c : String, classifyOperation s u c = OpKind.copy →
      lowerStr s ∈ parseExts c ∧ lowerStr s ∉ parseExts u) ∧
    parseExts "mkv，mp4, iso" = [".mkv", ".mp4", ".iso"] := by
  refine ⟨?_, ?_, ?_, by decide⟩
  · intro sa sb u c h
    unfold classifyOperation
    rw [h]
  · intro s u c h
    unfold classifyOperation
    rw [if_pos h]
  · intro s u c h
    unfold classifyOperation at h
    by_cases h1 : lowerStr s ∈ parseExts u
    · rw [if_pos h1] at h
      cases h
    · rw [if_neg h1] at h
      by_cases h2 : lowerStr s ∈ parseExts c
      · exact ⟨h2, h1⟩
      · rw [if_neg h2] at h
        cases h

theorem extension_classification_spec_witness :
    classifyOperation ".MKV" "mkv" "avi" = classifyOperation ".mkv" "mkv" "avi" ∧
    classifyOperation ".AVI" "avi" "avi" = OpKind.upload := by
  have h := extension_classification_spec
  exact ⟨h.1 ".MKV" ".mkv" "mkv" "avi" (by decide), h.2.1 ".AVI" "avi" "avi" (by decide)⟩

/-! ## C10: enqueue_file is total -/

/-- C10: `enqueue_file` never propagates an exception to its caller: for
every collaborator behaviour (including any of them raising), the call
returns normally — a fault raised anywhere in the body reaches the
terminal handler and comes back as the logged `faultLogged` outcome, never
as an error of `enqueue_file` itself. -/
theorem enqueue_file_total (env : EnqEnv) (eventPath monPath : String) :
    (enqueue_file env eventPath monPath).isOk = true ∧
    ∀ e, enqueue_body env eventPath monPath = Except.error e →
      enqueue_file env eventPath monPath = Except.ok (EnqOutcome.faultLogged e) := by
  constructor
  · unfold enqueue_file
    cases enqueue_body env eventPath monPath <;> rfl
  · intro e he
    unfold enqueue_file
    rw [he]

def c10Conf : DirConf :=
  { src := "/mon", destRemote := "/r", destLocal := "", delete := false }

def c10Env : EnqEnv :=
  { pathExists := true, stable := true,
    statSize := Except.error "OSError", statMtime := Except.ok 7,
    historyUploaded := fun _ _ => Except.ok false,
    inQueue := fun _ => Except.ok false,
    dirConfigs := Except.ok [some c10Conf],
    uploadExtCfg := Except.ok "mkv", copyExtCfg := Except.ok "",
    suffix := ".mkv", insertTask := Except.ok () }

theorem enqueue_file_total_witness :
    (enqueue_file c10Env "/mon/a.mkv" "/mon").isOk = true ∧
    enqueue_file c10Env "/mon/a.mkv" "/mon" =
      Except.ok (EnqOutcome.faultLogged "OSError") := by
  have h := enqueue_file_total c10Env "/mon/a.mkv" "/mon"
  exact ⟨h.1, h.2 "OSError" rfl⟩
